import Mathlib

set_option maxHeartbeats 1000000

/-! Verification of the tfx model-server runner state machine
(`tfx/components/infra_validator/model_server_runners/local_docker_runner`)
and of the trainer executor (`tfx/components/trainer/executor.py`).

The runner module itself is not present in the source tree; only its test
file is.  The runner is therefore modelled from the specification, with the
concrete string constants (error messages, image reference, port key,
environment entries) pinned by the assertions of
`local_docker_runner_test.py`. -/

/-- Modelled from the spec: the error taxonomy of the runner
(`IllegalState`, `Aborted` as `JobAborted`, `DeadlineExceeded`), §7 of the
spec and `tfx.components.infra_validator.error_types` used by the test. -/
inductive RunnerError
  | IllegalState (msg : String)
  | JobAborted
  | DeadlineExceeded
deriving Repr, DecidableEq

/-- Modelled from the spec: the runner state machine has two states,
`NotStarted → Started` (§4.2). -/
inductive RunnerState
  | notStarted
  | started
deriving Repr, DecidableEq

/-- Modelled from the spec: the serving specification relevant to the
runner — serving binary model name and tag (§3, and the test's
`_create_serving_spec` payload). -/
structure ServingSpec where
  modelName : String
  tag : String
deriving Repr, DecidableEq

/-- Modelled from the spec: the request the runner issues to the container
runtime client: `run(image, ports, environment, auto_remove, detach)`
(§6, and the keyword arguments asserted in `testStart`). -/
structure ContainerConfig where
  image : String
  ports : List (String × Nat)
  environment : List (String × String)
  auto_remove : Bool
  detach : Bool
deriving Repr, DecidableEq

/-- Modelled from the spec: what the binding-kind collaborator yields —
the image reference and the in-container serving port (§6).  The concrete
values for the tensorflow-serving kind are pinned by `testStart`:
image `tensorflow/serving:<tag>`, container port `8500`. -/
structure BinaryKindInfo where
  image : String
  containerPort : Nat
deriving Repr, DecidableEq

/-- Modelled from the spec: resolution of a serving spec by the
tensorflow-serving binding kind (§6; concrete image format pinned by the
`testStart` assertion `image = tensorflow/serving:1.15.0`). -/
def tensorflowServingResolve (spec : ServingSpec) : BinaryKindInfo :=
  { image := "tensorflow/serving:" ++ spec.tag, containerPort := 8500 }

/-- Modelled from the spec: the runner's own state — serving spec, state
machine state, the host port allocated at `Start`, and the owned container
handle (recorded here as the run request that created it), §3. -/
structure LocalDockerRunner where
  spec : ServingSpec
  state : RunnerState
  hostPort : Option Nat
  containerHandle : Option ContainerConfig
deriving Repr, DecidableEq

/-- A freshly constructed runner for the test scenario: model
`chicago-taxi`, tag `1.15.0`, not started, no port, no handle. -/
def initialRunner : LocalDockerRunner :=
  { spec := { modelName := "chicago-taxi", tag := "1.15.0" },
    state := RunnerState.notStarted,
    hostPort := none,
    containerHandle := none }

/-- Modelled from the spec: `Start` (§4.2).  Takes the port returned by the
port allocator (injected, as the test mocks `_find_available_port`).
On a second call fails with `IllegalState` and performs no side effect;
otherwise builds the container run request — port mapping
`containerPort/tcp ↦ hostPort`, environment `MODEL_NAME`/`MODEL_BASE_PATH`,
auto-remove, detached — records the handle and port and moves to `started`.
The exact error message is pinned by `testStartMultipleTimesFail`.
Returns (outcome, new runner, list of container run requests issued). -/
def LocalDockerRunner.Start (allocatedPort : Nat) (r : LocalDockerRunner) :
    Except RunnerError Unit × LocalDockerRunner × List ContainerConfig :=
  match r.state with
  | RunnerState.started =>
      (Except.error (RunnerError.IllegalState
          "You cannot start model server multiple times."), r, [])
  | RunnerState.notStarted =>
      let kind := tensorflowServingResolve r.spec
      let cfg : ContainerConfig :=
        { image := kind.image,
          ports := [(toString kind.containerPort ++ "/tcp", allocatedPort)],
          environment :=
            [("MODEL_NAME", r.spec.modelName), ("MODEL_BASE_PATH", "/model")],
          auto_remove := true,
          detach := true }
      (Except.ok (),
       { r with state := RunnerState.started,
                hostPort := some allocatedPort,
                containerHandle := some cfg },
       [cfg])

/-- Modelled from the spec: `GetEndpoint` (§4.2) — defined iff the state is
`Started`; returns `localhost:<hostPort>` deterministically, otherwise
fails with `IllegalState`. -/
def LocalDockerRunner.GetEndpoint (r : LocalDockerRunner) :
    Except RunnerError String :=
  match r.state with
  | RunnerState.notStarted =>
      Except.error (RunnerError.IllegalState "model server is not started.")
  | RunnerState.started =>
      Except.ok ("localhost:" ++ toString (r.hostPort.getD 0))

/-- Whether an endpoint lookup succeeded. -/
def endpointOk : Except RunnerError String → Bool
  | Except.ok _ => true
  | Except.error _ => false

/-- Modelled from the spec: the outcome of one refresh of the container
handle — either the runtime reports the container not found, or it yields
the current status string (§6). -/
inductive RefreshResult
  | notFound
  | status (s : String)
deriving Repr, DecidableEq

/-- Modelled from the spec: the fixed enumerated set of bad terminal
container statuses (§4.2: "any of a known bad terminal set (e.g., exited,
dead)"). -/
def badStatuses : List String := ["exited", "dead"]

/-- Membership in the fixed bad-status set. -/
def isBadStatus (s : String) : Bool := badStatuses.contains s

/-- A refresh outcome that neither succeeds nor aborts the wait: a status
that is neither `running` nor in the bad set; polling continues. -/
def isInconclusive : RefreshResult → Bool
  | RefreshResult.notFound => false
  | RefreshResult.status s => !(s == "running") && !(isBadStatus s)

instance {ε α : Type} [DecidableEq ε] [DecidableEq α] :
    DecidableEq (Except ε α) := fun a b =>
  match a, b with
  | Except.ok x, Except.ok y => decidable_of_iff (x = y) (by simp)
  | Except.ok _, Except.error _ => isFalse (by simp)
  | Except.error _, Except.ok _ => isFalse (by simp)
  | Except.error d, Except.error e => decidable_of_iff (d = e) (by simp)

/-- Observable trace of one `WaitUntilRunning` call: its outcome, the
number of `time.sleep` calls, and the number of handle refreshes
(`container.reload` calls). -/
structure WaitTrace where
  result : Except RunnerError Unit
  sleeps : Nat
  refreshes : Nat
deriving Repr, DecidableEq

/-- Modelled from the spec: the polling loop of `WaitUntilRunning` (§4.2).
`refresh i` is the outcome of the `i`-th handle refresh (the injected
container runtime); the second argument is the number of polling intervals
left before the deadline.  Each iteration refreshes the handle, classifies
the status (`running` → success, bad set → Aborted, not-found → Aborted,
otherwise sleep one interval and poll again); once the deadline is spent
the result is DeadlineExceeded.  The binding contract (§8, §9) is exactly
`deadline` sleeps when the status never becomes ready or bad. -/
def waitLoop (refresh : Nat → RefreshResult) : Nat → Nat → WaitTrace
  | _, 0 =>
      { result := Except.error RunnerError.DeadlineExceeded,
        sleeps := 0, refreshes := 0 }
  | k, fuel + 1 =>
      match refresh k with
      | RefreshResult.notFound =>
          { result := Except.error RunnerError.JobAborted,
            sleeps := 0, refreshes := 1 }
      | RefreshResult.status s =>
          if s = "running" then
            { result := Except.ok (), sleeps := 0, refreshes := 1 }
          else if isBadStatus s then
            { result := Except.error RunnerError.JobAborted,
              sleeps := 0, refreshes := 1 }
          else
            let t := waitLoop refresh (k + 1) fuel
            { result := t.result,
              sleeps := t.sleeps + 1,
              refreshes := t.refreshes + 1 }

/-- Modelled from the spec: `WaitUntilRunning(deadline)` (§4.2).
Precondition `state = Started`; violation fails with `IllegalState`
("container is not started.", message pinned by
`testWaitUntilRunning_FailWithoutStartingFirst`) with no refresh, no sleep
and no state change; otherwise runs the polling loop.  The runner is
returned unchanged in every case — `WaitUntilRunning` mutates nothing. -/
def LocalDockerRunner.WaitUntilRunning (refresh : Nat → RefreshResult)
    (deadline : Nat) (r : LocalDockerRunner) : WaitTrace × LocalDockerRunner :=
  match r.state with
  | RunnerState.notStarted =>
      ({ result := Except.error (RunnerError.IllegalState
              "container is not started."),
         sleeps := 0, refreshes := 0 }, r)
  | RunnerState.started => (waitLoop refresh 0 deadline, r)

/-! ### Helper lemmas about the polling loop -/

/-- Unpack an inconclusive status refresh outcome. -/
theorem isInconclusive_status {s : String} (h : isInconclusive (RefreshResult.status s) = true) :
    ¬ s = "running" ∧ isBadStatus s = false := by
  simp only [isInconclusive, Bool.and_eq_true, Bool.not_eq_true'] at h
  exact ⟨by simpa using h.1, h.2⟩

/-- If every poll before the deadline is inconclusive, the loop spends all
its fuel, sleeping and refreshing once per polling interval, and ends in
DeadlineExceeded. -/
theorem waitLoop_deadline (refresh : Nat → RefreshResult) :
    ∀ (fuel k : Nat),
    (∀ j, j < fuel → isInconclusive (refresh (k + j)) = true) →
    waitLoop refresh k fuel =
      { result := Except.error RunnerError.DeadlineExceeded,
        sleeps := fuel, refreshes := fuel } := by
  intro fuel
  induction fuel with
  | zero => intro k _; rfl
  | succ n ih =>
      intro k h
      have h0 : isInconclusive (refresh k) = true := by
        have := h 0 (Nat.succ_pos n)
        rwa [Nat.add_zero] at this
      cases hr : refresh k with
      | notFound => rw [hr] at h0; simp [isInconclusive] at h0
      | status s =>
          rw [hr] at h0
          obtain ⟨hrun, hbad⟩ := isInconclusive_status h0
          have ihh := ih (k + 1) (fun j hj => by
            have := h (j + 1) (Nat.succ_lt_succ hj)
            rwa [show k + (j + 1) = k + 1 + j by omega] at this)
          simp only [waitLoop, hr]
          rw [if_neg hrun, if_neg (by simp [hbad])]
          rw [ihh]

/-- Shifting past an inconclusive prefix: if the first `i` polls (starting
at index `k`) are inconclusive and fuel remains, the loop's outcome is that
of the loop started at poll `k + i`, with `i` extra sleeps and refreshes. -/
theorem waitLoop_shift (refresh : Nat → RefreshResult) :
    ∀ (i k fuel : Nat), i < fuel →
    (∀ j, j < i → isInconclusive (refresh (k + j)) = true) →
    waitLoop refresh k fuel =
      { result := (waitLoop refresh (k + i) (fuel - i)).result,
        sleeps := (waitLoop refresh (k + i) (fuel - i)).sleeps + i,
        refreshes := (waitLoop refresh (k + i) (fuel - i)).refreshes + i } := by
  intro i
  induction i with
  | zero => intro k fuel _ _; rfl
  | succ n ih =>
      intro k fuel hlt h
      obtain ⟨f, rfl⟩ : ∃ f, fuel = f + 1 := ⟨fuel - 1, by omega⟩
      have h0 : isInconclusive (refresh k) = true := by
        have := h 0 (Nat.succ_pos n)
        rwa [Nat.add_zero] at this
      cases hr : refresh k with
      | notFound => rw [hr] at h0; simp [isInconclusive] at h0
      | status s =>
          rw [hr] at h0
          obtain ⟨hrun, hbad⟩ := isInconclusive_status h0
          have ihh := ih (k + 1) f (by omega) (fun j hj => by
            have := h (j + 1) (Nat.succ_lt_succ hj)
            rwa [show k + (j + 1) = k + 1 + j by omega] at this)
          simp only [waitLoop, hr]
          rw [if_neg hrun, if_neg (by simp [hbad])]
          rw [ihh]
          rw [show k + 1 + n = k + (n + 1) by omega, Nat.succ_sub_succ]
          rfl

/-- Reduction of `WaitUntilRunning` on a started runner. -/
theorem waitUntilRunning_started_eq (refresh : Nat → RefreshResult)
    (deadline : Nat) (r : LocalDockerRunner)
    (h : r.state = RunnerState.started) :
    r.WaitUntilRunning refresh deadline = (waitLoop refresh 0 deadline, r) := by
  obtain ⟨spec, st, hp, ch⟩ := r
  cases st
  · exact RunnerState.noConfusion h
  · rfl

/-! ### Claims -/

/-- C1: for every started runner whose container status stays a non-ready,
non-bad status at every poll, `WaitUntilRunning(deadline)` fails with
DeadlineExceeded after performing exactly `deadline` sleep calls, never one
more or one fewer. -/
theorem waitUntilRunning_deadline_exact (refresh : Nat → RefreshResult)
    (deadline : Nat) (r : LocalDockerRunner)
    (h : r.state = RunnerState.started)
    (hinc : ∀ j, j < deadline → isInconclusive (refresh j) = true) :
    (r.WaitUntilRunning refresh deadline).1 =
      { result := Except.error RunnerError.DeadlineExceeded,
        sleeps := deadline, refreshes := deadline } := by
  rw [waitUntilRunning_started_eq refresh deadline r h]
  exact waitLoop_deadline refresh deadline 0 (fun j hj => by
    rw [Nat.zero_add]; exact hinc j hj)

/-- C1 witness: deadline 10 with status constantly `created` gives
DeadlineExceeded after exactly 10 sleeps. -/
theorem waitUntilRunning_deadline_exact_witness :
    (((LocalDockerRunner.Start 1234 initialRunner).2.1).WaitUntilRunning
        (fun _ => RefreshResult.status "created") 10).1 =
      { result := Except.error RunnerError.DeadlineExceeded,
        sleeps := 10, refreshes := 10 } :=
  waitUntilRunning_deadline_exact (fun _ => RefreshResult.status "created") 10
    (LocalDockerRunner.Start 1234 initialRunner).2.1 (by decide)
    (fun _ _ => rfl)

/-- C2: for every started runner, if refreshing the handle reports the
container not found at some poll (all earlier polls inconclusive), then
`WaitUntilRunning` fails with Aborted — not DeadlineExceeded — even when
time remains before the deadline (it has slept only `i < deadline`
times). -/
theorem waitUntilRunning_notFound_aborts (refresh : Nat → RefreshResult)
    (deadline i : Nat) (r : LocalDockerRunner)
    (h : r.state = RunnerState.started) (hi : i < deadline)
    (hpre : ∀ j, j < i → isInconclusive (refresh j) = true)
    (hnf : refresh i = RefreshResult.notFound) :
    (r.WaitUntilRunning refresh deadline).1.result =
      Except.error RunnerError.JobAborted ∧
    (r.WaitUntilRunning refresh deadline).1.result ≠
      Except.error RunnerError.DeadlineExceeded ∧
    (r.WaitUntilRunning refresh deadline).1.sleeps = i := by
  rw [waitUntilRunning_started_eq refresh deadline r h]
  have hsh := waitLoop_shift refresh i 0 deadline hi (fun j hj => by
    rw [Nat.zero_add]; exact hpre j hj)
  obtain ⟨m, hm⟩ : ∃ m, deadline - i = m + 1 := ⟨deadline - i - 1, by omega⟩
  rw [hsh, Nat.zero_add, hm]
  simp [waitLoop, hnf]

/-- C2 witness: not-found at the very first poll, deadline 10. -/
theorem waitUntilRunning_notFound_aborts_witness :
    (((LocalDockerRunner.Start 1234 initialRunner).2.1).WaitUntilRunning
        (fun _ => RefreshResult.notFound) 10).1.result =
      Except.error RunnerError.JobAborted ∧
    (((LocalDockerRunner.Start 1234 initialRunner).2.1).WaitUntilRunning
        (fun _ => RefreshResult.notFound) 10).1.result ≠
      Except.error RunnerError.DeadlineExceeded ∧
    (((LocalDockerRunner.Start 1234 initialRunner).2.1).WaitUntilRunning
        (fun _ => RefreshResult.notFound) 10).1.sleeps = 0 :=
  waitUntilRunning_notFound_aborts (fun _ => RefreshResult.notFound) 10 0
    (LocalDockerRunner.Start 1234 initialRunner).2.1 (by decide) (by decide)
    (fun j hj => absurd hj (by omega)) (by decide)

/-- C3: for every started runner, a bad terminal status (a member of the
fixed enumerated set `badStatuses`) at poll `i < deadline` makes
`WaitUntilRunning` fail with Aborted immediately at that poll — `i` sleeps,
not the full deadline; moreover the bad set is the fixed enumeration
`[exited, dead]`, and a merely non-`running` status such as `created` is
not classified bad. -/
theorem waitUntilRunning_bad_status_aborts (refresh : Nat → RefreshResult)
    (deadline i : Nat) (s : String) (r : LocalDockerRunner)
    (h : r.state = RunnerState.started) (hi : i < deadline)
    (hpre : ∀ j, j < i → isInconclusive (refresh j) = true)
    (hs : refresh i = RefreshResult.status s)
    (hbad : isBadStatus s = true) :
    (r.WaitUntilRunning refresh deadline).1.result =
      Except.error RunnerError.JobAborted ∧
    (r.WaitUntilRunning refresh deadline).1.sleeps = i ∧
    badStatuses = ["exited", "dead"] ∧
    isBadStatus "created" = false := by
  have hrun : ¬ s = "running" := by
    intro hcon
    subst hcon
    simp [isBadStatus, badStatuses] at hbad
  rw [waitUntilRunning_started_eq refresh deadline r h]
  have hsh := waitLoop_shift refresh i 0 deadline hi (fun j hj => by
    rw [Nat.zero_add]; exact hpre j hj)
  obtain ⟨m, hm⟩ : ∃ m, deadline - i = m + 1 := ⟨deadline - i - 1, by omega⟩
  rw [hsh, Nat.zero_add, hm]
  refine ⟨?_, ?_, rfl, by decide⟩
  · simp [waitLoop, hs, hrun, hbad]
  · simp [waitLoop, hs, hrun, hbad]

/-- C3 witness: status `dead` at the first poll, deadline 10: Aborted with
zero sleeps. -/
theorem waitUntilRunning_bad_status_aborts_witness :
    (((LocalDockerRunner.Start 1234 initialRunner).2.1).WaitUntilRunning
        (fun _ => RefreshResult.status "dead") 10).1.result =
      Except.error RunnerError.JobAborted ∧
    (((LocalDockerRunner.Start 1234 initialRunner).2.1).WaitUntilRunning
        (fun _ => RefreshResult.status "dead") 10).1.sleeps = 0 ∧
    badStatuses = ["exited", "dead"] ∧
    isBadStatus "created" = false :=
  waitUntilRunning_bad_status_aborts (fun _ => RefreshResult.status "dead") 10 0
    "dead" (LocalDockerRunner.Start 1234 initialRunner).2.1 (by decide)
    (by decide) (fun j hj => absurd hj (by omega)) (by decide) (by decide)

/-- C8: for every started runner whose refreshed status becomes `running`
at some poll `i < deadline` (earlier polls inconclusive),
`WaitUntilRunning` returns normally and the handle was refreshed at least
once. -/
theorem waitUntilRunning_success (refresh : Nat → RefreshResult)
    (deadline i : Nat) (r : LocalDockerRunner)
    (h : r.state = RunnerState.started) (hi : i < deadline)
    (hpre : ∀ j, j < i → isInconclusive (refresh j) = true)
    (hs : refresh i = RefreshResult.status "running") :
    (r.WaitUntilRunning refresh deadline).1.result = Except.ok () ∧
    1 ≤ (r.WaitUntilRunning refresh deadline).1.refreshes := by
  rw [waitUntilRunning_started_eq refresh deadline r h]
  have hsh := waitLoop_shift refresh i 0 deadline hi (fun j hj => by
    rw [Nat.zero_add]; exact hpre j hj)
  obtain ⟨m, hm⟩ : ∃ m, deadline - i = m + 1 := ⟨deadline - i - 1, by omega⟩
  rw [hsh, Nat.zero_add, hm]
  refine ⟨by simp [waitLoop, hs], ?_⟩
  simp only [waitLoop, hs]
  simp

/-- C4 (counterexample): the second `Start` does fail with `IllegalState`,
but its message is `You cannot start model server multiple times.` (pinned
by `testStartMultipleTimesFail`), which is not the message the claim
quotes (`you cannot start model server multiple times`). -/
theorem start_twice_message_counterexample :
    (LocalDockerRunner.Start 1234
        (LocalDockerRunner.Start 1234 initialRunner).2.1).1 =
      Except.error (RunnerError.IllegalState
        "You cannot start model server multiple times.") ∧
    "You cannot start model server multiple times." ≠
      "you cannot start model server multiple times" :=
  ⟨rfl, by decide⟩

/-- C4 (amended): for every runner on which `Start` has succeeded, a
second `Start` fails with `IllegalState` and the message
`You cannot start model server multiple times.`, leaves the runner (state,
allocated port, container handle) unchanged, and issues no container run
request. -/
theorem start_twice_fails_no_side_effect (r : LocalDockerRunner)
    (p q : Nat) (h : r.state = RunnerState.notStarted) :
    (LocalDockerRunner.Start q (LocalDockerRunner.Start p r).2.1).1 =
      Except.error (RunnerError.IllegalState
        "You cannot start model server multiple times.") ∧
    (LocalDockerRunner.Start q (LocalDockerRunner.Start p r).2.1).2.1 =
      (LocalDockerRunner.Start p r).2.1 ∧
    (LocalDockerRunner.Start q (LocalDockerRunner.Start p r).2.1).2.2 = [] ∧
    ((LocalDockerRunner.Start p r).2.1).hostPort = some p ∧
    ((LocalDockerRunner.Start p r).2.1).state = RunnerState.started := by
  obtain ⟨spec, st, hp, ch⟩ := r
  cases st
  · exact ⟨rfl, rfl, rfl, rfl, rfl⟩
  · exact RunnerState.noConfusion h

/-- C4 witness: the amended claim at the concrete test runner and ports. -/
theorem start_twice_fails_no_side_effect_witness :
    (LocalDockerRunner.Start 1234
        (LocalDockerRunner.Start 1234 initialRunner).2.1).1 =
      Except.error (RunnerError.IllegalState
        "You cannot start model server multiple times.") ∧
    (LocalDockerRunner.Start 1234
        (LocalDockerRunner.Start 1234 initialRunner).2.1).2.1 =
      (LocalDockerRunner.Start 1234 initialRunner).2.1 ∧
    (LocalDockerRunner.Start 1234
        (LocalDockerRunner.Start 1234 initialRunner).2.1).2.2 = [] ∧
    ((LocalDockerRunner.Start 1234 initialRunner).2.1).hostPort = some 1234 ∧
    ((LocalDockerRunner.Start 1234 initialRunner).2.1).state =
      RunnerState.started :=
  start_twice_fails_no_side_effect initialRunner 1234 1234 rfl

/-- C5 (counterexample): in the chicago-taxi / tag 1.15.0 scenario the one
container run request carries image `tensorflow/serving:1.15.0` (pinned by
`testStart`), not the image `my-server:1.15.0` the claim names. -/
theorem start_image_counterexample :
    ((LocalDockerRunner.Start 1234 initialRunner).2.2.map
        ContainerConfig.image) = ["tensorflow/serving:1.15.0"] ∧
    "tensorflow/serving:1.15.0" ≠ "my-server:1.15.0" :=
  ⟨rfl, by decide⟩

/-- C5 (amended): in the scenario where the serving spec names model
`chicago-taxi` with tag `1.15.0`, `Start` requests exactly one container
run, with image `tensorflow/serving:1.15.0`, port mapping
`8500/tcp ↦ 1234` (the allocated host port), environment containing
`MODEL_NAME=chicago-taxi` and `MODEL_BASE_PATH=/model`, auto-remove on,
and detached execution. -/
theorem start_run_request_contents :
    (LocalDockerRunner.Start 1234 initialRunner).2.2 =
      [{ image := "tensorflow/serving:1.15.0",
         ports := [("8500/tcp", 1234)],
         environment :=
           [("MODEL_NAME", "chicago-taxi"), ("MODEL_BASE_PATH", "/model")],
         auto_remove := true,
         detach := true }] := by
  decide

/-- C6: `GetEndpoint` fails with `IllegalState` before `Start`; after
`Start` it returns `localhost:<allocated port>` (the port chosen at
`Start`, regardless of what the container is doing); and on any runner it
succeeds if and only if the state is `started`. -/
theorem getEndpoint_spec (r : LocalDockerRunner) (p : Nat)
    (r2 : LocalDockerRunner) (h : r.state = RunnerState.notStarted) :
    r.GetEndpoint =
      Except.error (RunnerError.IllegalState "model server is not started.") ∧
    ((LocalDockerRunner.Start p r).2.1).GetEndpoint =
      Except.ok ("localhost:" ++ toString p) ∧
    (endpointOk r2.GetEndpoint = true ↔ r2.state = RunnerState.started) := by
  obtain ⟨spec, st, hp, ch⟩ := r
  cases st
  · refine ⟨rfl, rfl, ?_⟩
    obtain ⟨spec2, st2, hp2, ch2⟩ := r2
    cases st2
    · simp [LocalDockerRunner.GetEndpoint, endpointOk]
    · simp [LocalDockerRunner.GetEndpoint, endpointOk]
  · exact RunnerState.noConfusion h

/-- C6 witness: the concrete test runner, port 1234, and the started
runner as the subject of the iff. -/
theorem getEndpoint_spec_witness :
    LocalDockerRunner.GetEndpoint initialRunner =
      Except.error (RunnerError.IllegalState "model server is not started.") ∧
    ((LocalDockerRunner.Start 1234 initialRunner).2.1).GetEndpoint =
      Except.ok ("localhost:" ++ toString (1234 : Nat)) ∧
    (endpointOk
        ((LocalDockerRunner.Start 1234 initialRunner).2.1).GetEndpoint =
        true ↔
      ((LocalDockerRunner.Start 1234 initialRunner).2.1).state =
        RunnerState.started) :=
  getEndpoint_spec initialRunner 1234
    (LocalDockerRunner.Start 1234 initialRunner).2.1 rfl

/-- C7: on a runner in state `NotStarted`, `WaitUntilRunning` fails
immediately with `IllegalState` and the fixed message
`container is not started.`, performing no refresh, no sleep, and no
state change (the runner is returned exactly as it was). -/
theorem waitUntilRunning_requires_start (refresh : Nat → RefreshResult)
    (deadline : Nat) (r : LocalDockerRunner)
    (h : r.state = RunnerState.notStarted) :
    r.WaitUntilRunning refresh deadline =
      ({ result := Except.error (RunnerError.IllegalState
            "container is not started."),
         sleeps := 0, refreshes := 0 }, r) := by
  obtain ⟨spec, st, hp, ch⟩ := r
  cases st
  · rfl
  · exact RunnerState.noConfusion h

/-- C7 witness: the fresh test runner, deadline 10, a clock of constantly
`created` statuses. -/
theorem waitUntilRunning_requires_start_witness :
    initialRunner.WaitUntilRunning
        (fun _ => RefreshResult.status "created") 10 =
      ({ result := Except.error (RunnerError.IllegalState
            "container is not started."),
         sleeps := 0, refreshes := 0 }, initialRunner) :=
  waitUntilRunning_requires_start
    (fun _ => RefreshResult.status "created") 10 initialRunner rfl

/-- C8 witness: status `running` at the very first poll, deadline 10. -/
theorem waitUntilRunning_success_witness :
    (((LocalDockerRunner.Start 1234 initialRunner).2.1).WaitUntilRunning
        (fun _ => RefreshResult.status "running") 10).1.result =
      Except.ok () ∧
    1 ≤ (((LocalDockerRunner.Start 1234 initialRunner).2.1).WaitUntilRunning
        (fun _ => RefreshResult.status "running") 10).1.refreshes :=
  waitUntilRunning_success (fun _ => RefreshResult.status "running") 10 0
    (LocalDockerRunner.Start 1234 initialRunner).2.1 (by decide) (by decide)
    (fun j hj => absurd hj (by omega)) (by decide)

/-! ### Trainer executor (`tfx/components/trainer/executor.py`) -/

/-- Python-level errors raised by the executor code under verification:
`KeyError` from the `TrainerFnArgs` dictionary, `RuntimeError` from
`GenericExecutor.Do`. -/
inductive PyError
  | KeyError (key : String)
  | RuntimeError (msg : String)
deriving Repr, DecidableEq

/-- `TrainerFnArgs` (executor.py, lines 60-70): wrapper class storing its
keyword arguments in `self._data`; values are of an arbitrary type. -/
structure TrainerFnArgs (α : Type) where
  _data : List (String × α)
deriving Repr, DecidableEq

/-- Dictionary indexing `self._data[key]`: the value supplied for `key`,
or a `KeyError`. -/
def lookupKey {α : Type} (data : List (String × α)) (key : String) :
    Except PyError α :=
  match data.find? (fun kv => kv.1 == key) with
  | some kv => Except.ok kv.2
  | none => Except.error (PyError.KeyError key)

/-- `TrainerFnArgs.__getitem__` (executor.py line 66): returns
`self._data[key]`. -/
def TrainerFnArgs.getitem {α : Type} (t : TrainerFnArgs α) (key : String) :
    Except PyError α :=
  lookupKey t._data key

/-- `TrainerFnArgs.__getattr__` (executor.py line 69): returns
`self._data[key]`. -/
def TrainerFnArgs.getattr {α : Type} (t : TrainerFnArgs α) (key : String) :
    Except PyError α :=
  lookupKey t._data key

/-- Observable events of one `GenericExecutor.Do` call: invocations of the
user-supplied `run_fn` (with their argument) and `absl.logging.info`
messages, in program order. -/
inductive DoEvent
  | runFnCall (args : TrainerFnArgs String)
  | logInfo (msg : String)
deriving Repr, DecidableEq

/-- Recognizer for `run_fn` invocation events. -/
def isRunFnCall : DoEvent → Bool
  | DoEvent.runFnCall _ => true
  | DoEvent.logInfo _ => false

/-- Result of one `GenericExecutor.Do` call: the event trace, the outcome,
and the final filesystem state. -/
structure DoResult where
  events : List DoEvent
  result : Except PyError Unit
  fs : List String
deriving Repr, DecidableEq

/-- `tf.io.gfile.exists`, over a filesystem modelled as the list of
existing paths. -/
def gfileExists (fs : List String) (path : String) : Bool := fs.contains path

/-- `GenericExecutor.Do` (executor.py, lines 232-245), after `fn_args` and
`run_fn` have been resolved by `_GetFnArgs` / `_GetFn`: invokes
`run_fn(fn_args)`, logs `Training model.`, invokes `run_fn(fn_args)`
again, then raises `RuntimeError` if `fn_args.serving_model_dir` does not
exist, else logs completion.  `run_fn` is modelled as a filesystem
transformer; the attribute access `fn_args.serving_model_dir` happens
after both invocations, as in the source. -/
def GenericExecutor.Do (fnArgs : TrainerFnArgs String)
    (run_fn : List String → List String) (fs0 : List String) : DoResult :=
  let fs1 := run_fn fs0
  let fs2 := run_fn fs1
  let pre : List DoEvent :=
    [DoEvent.runFnCall fnArgs, DoEvent.logInfo "Training model.",
     DoEvent.runFnCall fnArgs]
  match TrainerFnArgs.getattr fnArgs "serving_model_dir" with
  | Except.error e => { events := pre, result := Except.error e, fs := fs2 }
  | Except.ok dir =>
      if gfileExists fs2 dir then
        { events := pre ++
            [DoEvent.logInfo ("Training complete. Model written to " ++ dir)],
          result := Except.ok (), fs := fs2 }
      else
        { events := pre,
          result := Except.error
            (PyError.RuntimeError "run_fn failed to generate model."),
          fs := fs2 }

/-- C9: `GenericExecutor.Do` invokes the user-supplied `run_fn` exactly
twice with the same `fn_args` — once before and once after the
`Training model.` log — and raises `RuntimeError` exactly when the serving
model directory does not exist after those two invocations. -/
theorem genericDo_spec (fnArgs : TrainerFnArgs String)
    (run_fn : List String → List String) (fs0 : List String) (dir : String)
    (h : TrainerFnArgs.getattr fnArgs "serving_model_dir" = Except.ok dir) :
    (GenericExecutor.Do fnArgs run_fn fs0).events.take 3 =
      [DoEvent.runFnCall fnArgs, DoEvent.logInfo "Training model.",
       DoEvent.runFnCall fnArgs] ∧
    (GenericExecutor.Do fnArgs run_fn fs0).events.filter isRunFnCall =
      [DoEvent.runFnCall fnArgs, DoEvent.runFnCall fnArgs] ∧
    ((GenericExecutor.Do fnArgs run_fn fs0).result =
        Except.error (PyError.RuntimeError "run_fn failed to generate model.")
      ↔ gfileExists (run_fn (run_fn fs0)) dir = false) := by
  by_cases hg : gfileExists (run_fn (run_fn fs0)) dir = true
  · have hD : GenericExecutor.Do fnArgs run_fn fs0 =
        { events := [DoEvent.runFnCall fnArgs,
                     DoEvent.logInfo "Training model.",
                     DoEvent.runFnCall fnArgs,
                     DoEvent.logInfo
                       ("Training complete. Model written to " ++ dir)],
          result := Except.ok (), fs := run_fn (run_fn fs0) } := by
      simp [GenericExecutor.Do, h, hg]
    rw [hD]
    refine ⟨rfl, ?_, ?_⟩
    · simp [List.filter, isRunFnCall]
    · simp [hg]
  · have hg' : gfileExists (run_fn (run_fn fs0)) dir = false := by
      simpa using hg
    have hD : GenericExecutor.Do fnArgs run_fn fs0 =
        { events := [DoEvent.runFnCall fnArgs,
                     DoEvent.logInfo "Training model.",
                     DoEvent.runFnCall fnArgs],
          result := Except.error
            (PyError.RuntimeError "run_fn failed to generate model."),
          fs := run_fn (run_fn fs0) } := by
      simp [GenericExecutor.Do, h, hg']
    rw [hD]
    refine ⟨rfl, ?_, ?_⟩
    · simp [List.filter, isRunFnCall]
    · simp [hg']

/-- C9 witness: a `run_fn` that creates the serving directory, with
`serving_model_dir = /out/serving` supplied in the arguments. -/
theorem genericDo_spec_witness :
    (GenericExecutor.Do { _data := [("serving_model_dir", "/out/serving")] }
        (fun fs => "/out/serving" :: fs) []).events.take 3 =
      [DoEvent.runFnCall { _data := [("serving_model_dir", "/out/serving")] },
       DoEvent.logInfo "Training model.",
       DoEvent.runFnCall
         { _data := [("serving_model_dir", "/out/serving")] }] ∧
    (GenericExecutor.Do { _data := [("serving_model_dir", "/out/serving")] }
        (fun fs => "/out/serving" :: fs) []).events.filter isRunFnCall =
      [DoEvent.runFnCall { _data := [("serving_model_dir", "/out/serving")] },
       DoEvent.runFnCall
         { _data := [("serving_model_dir", "/out/serving")] }] ∧
    ((GenericExecutor.Do { _data := [("serving_model_dir", "/out/serving")] }
        (fun fs => "/out/serving" :: fs) []).result =
        Except.error (PyError.RuntimeError "run_fn failed to generate model.")
      ↔ gfileExists ((fun fs => "/out/serving" :: fs)
          ((fun fs => "/out/serving" :: fs) [])) "/out/serving" = false) :=
  genericDo_spec { _data := [("serving_model_dir", "/out/serving")] }
    (fun fs => "/out/serving" :: fs) [] "/out/serving" (by decide)

/-- C10: for a `TrainerFnArgs` built from keyword arguments, item access
and attribute access agree on every key, and both raise `KeyError` for a
key that was not supplied. -/
theorem trainerFnArgs_item_attr_agree {α : Type} (t : TrainerFnArgs α)
    (key missingKey : String)
    (h : missingKey ∉ t._data.map Prod.fst) :
    TrainerFnArgs.getitem t key = TrainerFnArgs.getattr t key ∧
    TrainerFnArgs.getitem t missingKey =
      Except.error (PyError.KeyError missingKey) ∧
    TrainerFnArgs.getattr t missingKey =
      Except.error (PyError.KeyError missingKey) := by
  have hf : t._data.find? (fun kv => kv.1 == missingKey) = none := by
    rw [List.find?_eq_none]
    intro kv hkv hbeq
    exact h (List.mem_map.mpr ⟨kv, hkv, by simpa using hbeq⟩)
  refine ⟨rfl, ?_, ?_⟩
  · simp [TrainerFnArgs.getitem, lookupKey, hf]
  · simp [TrainerFnArgs.getattr, lookupKey, hf]

/-- C10 witness: arguments supplying only `train_steps`; the key
`eval_steps` was not supplied. -/
theorem trainerFnArgs_item_attr_agree_witness :
    TrainerFnArgs.getitem { _data := [("train_steps", (100 : Nat))] }
        "train_steps" =
      TrainerFnArgs.getattr { _data := [("train_steps", (100 : Nat))] }
        "train_steps" ∧
    TrainerFnArgs.getitem { _data := [("train_steps", (100 : Nat))] }
        "eval_steps" =
      Except.error (PyError.KeyError "eval_steps") ∧
    TrainerFnArgs.getattr { _data := [("train_steps", (100 : Nat))] }
        "eval_steps" =
      Except.error (PyError.KeyError "eval_steps") :=
  trainerFnArgs_item_attr_agree { _data := [("train_steps", 100)] }
    "train_steps" "eval_steps" (by decide)
